import Mathlib

/-!
Verification of the GitLab OAuth authorization provider's permission
resolver (`RepoPerms`) and remote visibility fetcher (`fetchProjVis`).

The Go source is embedded shallowly:
- `gitlab.Visibility` is a Go string; its three constants are `Public`,
  `Internal`, `Private` below.
- The two Redis-backed TTL caches are modelled as association lists; a
  missing key models both an absent entry and one whose TTL has elapsed
  (the cache helpers themselves are not part of the analysed sources and
  are modelled from the specification's cache contracts).
- The remote GitLab client is an oracle (`Env.fetch`) giving, per
  (access token, project ID), the triple that `fetchProjVis` would
  return; cache-write I/O failures are oracles as well.
- Go map iteration order is arbitrary; the model fixes the iteration
  order to the input list order, which the proved properties do not
  depend on.
- The returned `map[api.RepoName]map[authz.Perm]bool` always holds the
  single permission `authz.Read`, so it is modelled as an association
  list from repository name to the read flag, with Go-map overwrite
  semantics (`permsSet`).
-/

namespace GitlabAuthz

/-- The Go constant gitlab.Public = "public". -/
def Public : String := "public"

/-- The Go constant gitlab.Internal = "internal". -/
def Internal : String := "internal"

/-- The Go constant gitlab.Private = "private". -/
def Private : String := "private"

/-- authz.Repo's embedded api.ExternalRepoSpec: the fields RepoPerms reads. -/
structure ExternalRepoSpec where
  id : String
  serviceType : String
  serviceID : String
deriving DecidableEq

/-- authz.Repo: canonical name plus external spec. -/
structure Repo where
  repoName : String
  externalRepoSpec : ExternalRepoSpec
deriving DecidableEq

/-- extsvc.ExternalAccount, restricted to the fields RepoPerms reads.
`externalAccountData` is the decode outcome of
gitlab.GetExternalAccountData on the stored payload: `none` models a
decode failure, `some tok` a successfully decoded OAuth access token
(the decoder itself is not in the analysed sources; modelled from the
spec's "credential extracted from the account's stored external-account
data; missing/malformed credential data is a fatal error"). -/
structure ExternalAccount where
  serviceType : String
  serviceID : String
  accountID : String
  externalAccountData : Option String
deriving DecidableEq

/-- The provider identity and configured cache TTL (time modelled as Nat). -/
structure Provider where
  serviceID : String
  serviceType : String
  cacheTTL : Nat
deriving DecidableEq

/-- repoVisibilityCacheVal from the source: cached visibility string + TTL. -/
structure repoVisibilityCacheVal where
  visibility : String
  ttl : Nat
deriving DecidableEq

/-- userRepoCacheVal from the source: cached per-account read grant + TTL. -/
structure userRepoCacheVal where
  read : Bool
  ttl : Nat
deriving DecidableEq

/-- The two TTL caches, as association lists keyed by project ID and by
(account ID, project ID). An absent key models a miss or an expired entry. -/
structure Cache where
  vis : List (Int × repoVisibilityCacheVal)
  userRepo : List (String × Int × userRepoCacheVal)
deriving DecidableEq

/-- Modelled from the spec: visibility-cache get — `found` is false when
the key is absent or its TTL has elapsed (the cache helper is not in the
analysed sources). -/
def cacheGetRepoVisibility (c : Cache) (projID : Int) : Option repoVisibilityCacheVal :=
  (c.vis.find? (fun q => q.1 == projID)).map (fun q => q.2)

/-- Modelled from the spec: visibility-cache set (key overwrite). -/
def cacheSetRepoVisibility (c : Cache) (projID : Int) (v : repoVisibilityCacheVal) : Cache :=
  { c with vis := (projID, v) :: c.vis.filter (fun q => q.1 != projID) }

/-- Modelled from the spec: user-access-cache get, keyed by account and project. -/
def cacheGetUserRepo (c : Cache) (accountID : String) (projID : Int) : Option userRepoCacheVal :=
  (c.userRepo.find? (fun q => q.1 == accountID && q.2.1 == projID)).map (fun q => q.2.2)

/-- Modelled from the spec: user-access-cache set (key overwrite). -/
def cacheSetUserRepo (c : Cache) (accountID : String) (projID : Int) (v : userRepoCacheVal) : Cache :=
  { c with userRepo :=
      (accountID, projID, v) :: c.userRepo.filter (fun q => !(q.1 == accountID && q.2.1 == projID)) }

/-- Go's strconv.Atoi as used on the external repo ID: optional sign, one
or more decimal digits, value within the 64-bit int range. -/
def goAtoi (s : String) : Option Int :=
  let (sign, digits) :=
    match s.data with
    | '-' :: rest => ((-1 : Int), rest)
    | '+' :: rest => ((1 : Int), rest)
    | other => ((1 : Int), other)
  if digits = [] then none
  else if digits.all Char.isDigit then
    let n : Nat := digits.foldl (fun acc ch => acc * 10 + (ch.toNat - '0'.toNat)) 0
    let v : Int := sign * (n : Int)
    if -(2 ^ 63) ≤ v ∧ v ≤ 2 ^ 63 - 1 then some v else none
  else none

/-- The result triple of fetchProjVis: (isAccessible, vis, err). `hasError`
models a non-nil Go error (its identity is irrelevant to the resolver,
which only logs it). -/
structure fetchProjVisResult where
  isAccessible : Bool
  vis : String
  hasError : Bool
deriving DecidableEq

/-- Metadata of a GitLab project as returned by the client. -/
structure Project where
  visibility : String
deriving DecidableEq

/-- Modelled from the spec: outcome of the gitlab client's GetProject call
(the client is not in the analysed sources): either project metadata, or
an error from which gitlab.HTTPErrorCode extracts an HTTP status code
(`none` when the error carries no HTTP code, e.g. a transport failure). -/
inductive GetProjectResult where
  | ok (proj : Project)
  | err (httpCode : Option Nat)
deriving DecidableEq

/-- fetchProjVis from the source: a 404 from the host means "not
accessible" and is not an error; any other error is propagated; success
yields the project's visibility. -/
def fetchProjVis : GetProjectResult → fetchProjVisResult
  | .ok proj => ⟨true, proj.visibility, false⟩
  | .err code => if code == some 404 then ⟨false, "", false⟩ else ⟨false, "", true⟩

/-- The external world of one RepoPerms call: the remote fetch oracle
(the fetchProjVis result per access token and project ID) and the
I/O-failure oracles of the two cache set operations. -/
structure Env where
  fetch : String → Int → fetchProjVisResult
  visSetFails : Int → Bool
  userSetFails : String → Int → Bool

/-- Modelled from the spec: authz.GetCodeHostRepos ownership
classification (not in the analysed sources) — a repository belongs to
this provider when its external service identity matches the provider's. -/
def providerOwns (p : Provider) (r : Repo) : Bool :=
  r.externalRepoSpec.serviceID == p.serviceID && r.externalRepoSpec.serviceType == p.serviceType

/-- Go-map overwrite insert into the permission map. -/
def permsSet (ps : List (String × Bool)) (name : String) (read : Bool) : List (String × Bool) :=
  (name, read) :: ps.filter (fun q => q.1 != name)

/-- Lookup in the permission map. -/
def permsGet (ps : List (String × Bool)) (name : String) : Option Bool :=
  (ps.find? (fun q => q.1 == name)).map (fun q => q.2)

/-- Error message of the wrapped strconv.Atoi failure. -/
def parseErrMsg : String := "GitLab repo external ID did not parse to int"

/-- Error message of a failed visibility-cache write. -/
def visSetErrMsg : String := "could not set cached repo visibility"

/-- Error message of a failed user-access-cache write. -/
def userSetErrMsg : String := "could not set cached user repo"

/-- Error message of a GetExternalAccountData decode failure. -/
def decodeErrMsg : String := "could not decode external account data"

/-- The accountID computed at the top of RepoPerms: empty (anonymous)
unless the account is non-nil and its service identity matches the provider. -/
def resolvedAccountID (p : Provider) (account : Option ExternalAccount) : String :=
  match account with
  | some a => if a.serviceID == p.serviceID && a.serviceType == p.serviceType then a.accountID else ""
  | none => ""

/-- The access-token extraction before phase 3: a nil account uses the
empty credential; a non-nil account (even one whose identity did not
match) has its stored data decoded, a decode failure being fatal. -/
def decodeToken : Option ExternalAccount → Except String String
  | none => .ok ""
  | some a =>
    match a.externalAccountData with
    | none => .error decodeErrMsg
    | some tok => .ok tok

/-- Phase 1 of RepoPerms: the visibility-cache pass. Parses every
repository's external ID (fatal on failure), resolves `public` for any
account and `internal` for authenticated accounts, and collects the rest
as the next remaining set. -/
def phase1 (accountID : String) (c : Cache) (perms : List (String × Bool)) :
    List Repo → Except String (List (String × Bool) × List Repo)
  | [] => .ok (perms, [])
  | repo :: rest =>
    match goAtoi repo.externalRepoSpec.id with
    | none => .error parseErrMsg
    | some projID =>
      match cacheGetRepoVisibility c projID with
      | none => (phase1 accountID c perms rest).map (fun r => (r.1, repo :: r.2))
      | some v =>
        if v.visibility == Public || (v.visibility == Internal && accountID != "") then
          phase1 accountID c (permsSet perms repo.repoName true) rest
        else
          (phase1 accountID c perms rest).map (fun r => (r.1, repo :: r.2))

/-- Phase 2 of RepoPerms: the user-access-cache pass (the caller only
runs it for authenticated accounts). A hit resolves with the cached
grant (true or false); a miss escalates. -/
def phase2 (accountID : String) (c : Cache) (perms : List (String × Bool)) :
    List Repo → Except String (List (String × Bool) × List Repo)
  | [] => .ok (perms, [])
  | repo :: rest =>
    match goAtoi repo.externalRepoSpec.id with
    | none => .error parseErrMsg
    | some projID =>
      match cacheGetUserRepo c accountID projID with
      | none => (phase2 accountID c perms rest).map (fun r => (r.1, repo :: r.2))
      | some ur => phase2 accountID c (permsSet perms repo.repoName ur.read) rest

/-- Phase 3 of RepoPerms: the remote-fetch pass. Threads the cache and
records every issued fetch as (access token, project ID); a fetch error
is logged and skipped, an accessible result grants read and updates the
caches, a not-accessible result for an authenticated account records
`private` and a negative grant, and cache-write failures abort the call. -/
def phase3 (env : Env) (accountID accessToken : String) (ttl : Nat) :
    Cache → List (String × Bool) → List Repo →
      Except String (List (String × Bool)) × Cache × List (String × Int)
  | c, perms, [] => (.ok perms, c, [])
  | c, perms, repo :: rest =>
    match goAtoi repo.externalRepoSpec.id with
    | none => (.error parseErrMsg, c, [])
    | some projID =>
      let fr := env.fetch accessToken projID
      if fr.hasError then
        let (r, c2, l) := phase3 env accountID accessToken ttl c perms rest
        (r, c2, (accessToken, projID) :: l)
      else if fr.isAccessible then
        let perms2 := permsSet perms repo.repoName true
        if env.visSetFails projID then
          (.error visSetErrMsg, c, [(accessToken, projID)])
        else
          let c1 := cacheSetRepoVisibility c projID ⟨fr.vis, ttl⟩
          if fr.vis == Private then
            if env.userSetFails accountID projID then
              (.error userSetErrMsg, c1, [(accessToken, projID)])
            else
              let c2 := cacheSetUserRepo c1 accountID projID ⟨true, ttl⟩
              let (r, c3, l) := phase3 env accountID accessToken ttl c2 perms2 rest
              (r, c3, (accessToken, projID) :: l)
          else
            let (r, c3, l) := phase3 env accountID accessToken ttl c1 perms2 rest
            (r, c3, (accessToken, projID) :: l)
      else if accountID != "" then
        if env.visSetFails projID then
          (.error visSetErrMsg, c, [(accessToken, projID)])
        else
          let c1 := cacheSetRepoVisibility c projID ⟨Private, ttl⟩
          if env.userSetFails accountID projID then
            (.error userSetErrMsg, c1, [(accessToken, projID)])
          else
            let c2 := cacheSetUserRepo c1 accountID projID ⟨false, ttl⟩
            let (r, c3, l) := phase3 env accountID accessToken ttl c2 perms rest
            (r, c3, (accessToken, projID) :: l)
      else
        let (r, c3, l) := phase3 env accountID accessToken ttl c perms rest
        (r, c3, (accessToken, projID) :: l)

deriving instance DecidableEq for Except

/-- The observable outcome of one RepoPerms call: the returned
(permission map or error), the final cache state, and the log of remote
fetches issued, each as (access token credential, project ID). -/
structure RepoPermsOut where
  res : Except String (List (String × Bool))
  cache : Cache
  fetchLog : List (String × Int)
deriving DecidableEq

/-- RepoPerms from the source, faithfully including its use of the
`remaining` variable in phase 3: for an anonymous caller `remaining` is
still the full owned set (the swap with `nextRemaining` only happens
inside the authenticated phase-2 block), and for an authenticated caller
it is the set that entered phase 2 (not phase 2's leftovers). -/
def RepoPerms (p : Provider) (env : Env) (c : Cache)
    (account : Option ExternalAccount) (repos : List Repo) : RepoPermsOut :=
  let accountID := resolvedAccountID p account
  let remaining := repos.filter (providerOwns p)
  match phase1 accountID c [] remaining with
  | .error e => ⟨.error e, c, []⟩
  | .ok (perms1, next1) =>
    if next1.isEmpty then ⟨.ok perms1, c, []⟩
    else if accountID != "" then
      match phase2 accountID c perms1 next1 with
      | .error e => ⟨.error e, c, []⟩
      | .ok (perms2, next2) =>
        if next2.isEmpty then ⟨.ok perms2, c, []⟩
        else
          match decodeToken account with
          | .error e => ⟨.error e, c, []⟩
          | .ok tok =>
            let (r, c2, l) := phase3 env accountID tok p.cacheTTL c perms2 next1
            ⟨r, c2, l⟩
    else
      match decodeToken account with
      | .error e => ⟨.error e, c, []⟩
      | .ok tok =>
        let (r, c2, l) := phase3 env accountID tok p.cacheTTL c perms1 remaining
        ⟨r, c2, l⟩

/-! ## Helper lemmas about the cache and permission-map operations -/

theorem mem_permsSet {ps : List (String × Bool)} {n : String} {b : Bool}
    {q : String × Bool} (h : q ∈ permsSet ps n b) : q = (n, b) ∨ q ∈ ps := by
  rcases List.mem_cons.mp h with h1 | h1
  · exact Or.inl h1
  · exact Or.inr (List.mem_of_mem_filter h1)

theorem cacheGetRepoVisibility_set_same (c : Cache) (i : Int) (v : repoVisibilityCacheVal) :
    cacheGetRepoVisibility (cacheSetRepoVisibility c i v) i = some v := by
  simp [cacheGetRepoVisibility, cacheSetRepoVisibility, List.find?]

theorem cacheGetRepoVisibility_setUser (c : Cache) (a : String) (j : Int)
    (v : userRepoCacheVal) (i : Int) :
    cacheGetRepoVisibility (cacheSetUserRepo c a j v) i = cacheGetRepoVisibility c i := rfl

theorem cacheGetUserRepo_setVis (c : Cache) (i : Int) (v : repoVisibilityCacheVal)
    (a : String) (j : Int) :
    cacheGetUserRepo (cacheSetRepoVisibility c i v) a j = cacheGetUserRepo c a j := rfl

theorem cacheGetUserRepo_set_same (c : Cache) (a : String) (i : Int) (v : userRepoCacheVal) :
    cacheGetUserRepo (cacheSetUserRepo c a i v) a i = some v := by
  simp [cacheGetUserRepo, cacheSetUserRepo, List.find?]

theorem cacheSetRepoVisibility_userRepo (c : Cache) (i : Int) (v : repoVisibilityCacheVal) :
    (cacheSetRepoVisibility c i v).userRepo = c.userRepo := rfl

/-! ## Concrete instances used by counterexamples, bug exhibits and witnesses -/

/-- A provider for the GitLab instance at gl.example.com with TTL 60. -/
def p0 : Provider := ⟨"https://gl.example.com/", "gitlab", 60⟩

/-- Repository 1 of the provider's host, named "a". -/
def repoA : Repo := ⟨"a", ⟨"1", "gitlab", "https://gl.example.com/"⟩⟩

/-- Repository 2 of the provider's host, named "b". -/
def repoB : Repo := ⟨"b", ⟨"2", "gitlab", "https://gl.example.com/"⟩⟩

/-- A world where every project is accessible with public visibility and
cache writes never fail. -/
def envAllPublic : Env :=
  { fetch := fun _ _ => ⟨true, Public, false⟩
    visSetFails := fun _ => false
    userSetFails := fun _ _ => false }

/-- Cache holding a fresh public visibility entry for project 1 only. -/
def c6cache : Cache := ⟨[(1, ⟨Public, 60⟩)], []⟩

/-- A matched, authenticated account user1 with decodable token "t". -/
def acct1 : ExternalAccount := ⟨"gitlab", "https://gl.example.com/", "user1", some "t"⟩

/-- Cache holding a fresh negative user-access grant for (user1, 1) only. -/
def c7cache : Cache := ⟨[], [("user1", 1, ⟨false, 60⟩)]⟩

/-- A world where every project is accessible with internal visibility. -/
def envInternal : Env :=
  { fetch := fun _ _ => ⟨true, Internal, false⟩
    visSetFails := fun _ => false
    userSetFails := fun _ _ => false }

/-- An account of a different GitLab host (service identity mismatch),
carrying decodable token "tok". -/
def acctMismatch : ExternalAccount := ⟨"gitlab", "https://other.example.com/", "alice", some "tok"⟩

/-- A world where project 1 is an internal project visible to the bearer
of "tok" but not to anonymous callers. -/
def envC1 : Env :=
  { fetch := fun tok _ => if tok == "tok" then ⟨true, Internal, false⟩ else ⟨false, "", false⟩
    visSetFails := fun _ => false
    userSetFails := fun _ _ => false }

/-- A repository of the provider's host whose external ID is not numeric. -/
def repoBad : Repo := ⟨"x", ⟨"notanum", "gitlab", "https://gl.example.com/"⟩⟩

/-- A world where project 1's fetch fails with a transport error while
project 2 is accessible with public visibility. -/
def envC5bug : Env :=
  { fetch := fun _ i => if i == 1 then ⟨false, "", true⟩ else ⟨true, Public, false⟩
    visSetFails := fun _ => false
    userSetFails := fun _ _ => false }

/-! ## Reduction of a singleton call that reaches phase 3 -/

/-- A call on a single owned repository that misses both caches reduces
to the credential decode followed by phase 3 on that repository. -/
theorem repoPerms_singleton_reaches_phase3
    (p : Provider) (env : Env) (c : Cache) (account : Option ExternalAccount)
    (repo : Repo) (i : Int)
    (hown : providerOwns p repo = true)
    (hparse : goAtoi repo.externalRepoSpec.id = some i)
    (hvis : cacheGetRepoVisibility c i = none)
    (huser : resolvedAccountID p account ≠ "" →
      cacheGetUserRepo c (resolvedAccountID p account) i = none) :
    RepoPerms p env c account [repo] =
      match decodeToken account with
      | .error e => ⟨.error e, c, []⟩
      | .ok tok =>
        ⟨(phase3 env (resolvedAccountID p account) tok p.cacheTTL c [] [repo]).1,
         (phase3 env (resolvedAccountID p account) tok p.cacheTTL c [] [repo]).2.1,
         (phase3 env (resolvedAccountID p account) tok p.cacheTTL c [] [repo]).2.2⟩ := by
  have hph1 : phase1 (resolvedAccountID p account) c [] [repo] = .ok ([], [repo]) := by
    simp [phase1, hparse, hvis, Except.map]
  by_cases ha : resolvedAccountID p account = ""
  · rw [ha] at hph1
    rcases hd : decodeToken account with e | tok
    · simp [RepoPerms, hown, ha, hd, hph1]
    · rcases hp3 : phase3 env "" tok p.cacheTTL c [] [repo] with ⟨r, c2, l⟩
      simp [RepoPerms, hown, ha, hd, hph1, hp3]
  · have hph2 : phase2 (resolvedAccountID p account) c [] [repo] = .ok ([], [repo]) := by
      simp [phase2, hparse, huser ha, Except.map]
    rcases hd : decodeToken account with e | tok
    · simp [RepoPerms, hown, hph1, hph2, bne_iff_ne, ha, hd]
    · rcases hp3 : phase3 env (resolvedAccountID p account) tok p.cacheTTL c [] [repo]
        with ⟨r, c2, l⟩
      simp [RepoPerms, hown, hph1, hph2, bne_iff_ne, ha, hd, hp3]

/-- Phase 3 on a single parsable repository always logs exactly one
fetch, carrying the access token as credential, whatever the outcome. -/
theorem phase3_singleton_fetchLog
    (env : Env) (aid tok : String) (ttl : Nat) (c : Cache) (repo : Repo) (i : Int)
    (hparse : goAtoi repo.externalRepoSpec.id = some i) :
    (phase3 env aid tok ttl c [] [repo]).2.2 = [(tok, i)] := by
  rcases hf : env.fetch tok i with ⟨acc, vis, herr⟩
  cases herr <;> cases acc <;>
    cases hvf : env.visSetFails i <;>
    cases huf : env.userSetFails aid i <;>
    by_cases hP : vis = Private <;>
    by_cases haid : aid = "" <;>
    simp [phase3, hparse, hf, hvf, huf, hP, haid] <;>
    (try (split <;> rfl))

/-! ## C9 — fetchProjVis error classification -/

/-- C9: fetchProjVis returns (accessible=false, visibility="", no error)
when the host reports 404 for the credential, returns an error exactly
for the other failure modes, and returns (true, the project's
visibility, no error) on success. -/
theorem c9_fetchProjVis_classification :
    (fetchProjVis (.err (some 404)) = ⟨false, "", false⟩) ∧
    (∀ code : Option Nat, code ≠ some 404 → fetchProjVis (.err code) = ⟨false, "", true⟩) ∧
    (∀ proj : Project, fetchProjVis (.ok proj) = ⟨true, proj.visibility, false⟩) := by
  refine ⟨rfl, ?_, fun _ => rfl⟩
  intro code h
  simp [fetchProjVis, h]

/-- Witness for C9 at the concrete inputs: a transport error without an
HTTP code, and a 500 response, both surface as errors. -/
theorem c9_fetchProjVis_classification_witness :
    fetchProjVis (.err none) = ⟨false, "", true⟩ ∧
    fetchProjVis (.err (some 500)) = ⟨false, "", true⟩ :=
  ⟨c9_fetchProjVis_classification.2.1 none (by decide),
   c9_fetchProjVis_classification.2.1 (some 500) (by decide)⟩

/-! ## C3 — phase-3 handling of an accessible fetch -/

/-- C3: on a singleton batch reaching phase 3, an accessible fetch with
visibility V resolves the repository with read=true, writes the
visibility-cache entry (V, configured TTL) — a write failure aborting
the whole call with the wrapped error — and writes a user-access entry
(resolved account, repo, granted=true) exactly when V is private, the
user-access cache being untouched otherwise. -/
theorem c3_accessible_fetch
    (p : Provider) (env : Env) (c : Cache) (account : Option ExternalAccount)
    (repo : Repo) (i : Int) (tok V : String)
    (hown : providerOwns p repo = true)
    (hparse : goAtoi repo.externalRepoSpec.id = some i)
    (hvis : cacheGetRepoVisibility c i = none)
    (huser : resolvedAccountID p account ≠ "" →
      cacheGetUserRepo c (resolvedAccountID p account) i = none)
    (hdec : decodeToken account = .ok tok)
    (hfetch : env.fetch tok i = ⟨true, V, false⟩) :
    (env.visSetFails i = true →
      (RepoPerms p env c account [repo]).res = .error visSetErrMsg) ∧
    (env.visSetFails i = false →
      (V = Private → env.userSetFails (resolvedAccountID p account) i = false) →
      (RepoPerms p env c account [repo]).res = .ok [(repo.repoName, true)] ∧
      cacheGetRepoVisibility (RepoPerms p env c account [repo]).cache i =
        some ⟨V, p.cacheTTL⟩ ∧
      (V = Private →
        cacheGetUserRepo (RepoPerms p env c account [repo]).cache
          (resolvedAccountID p account) i = some ⟨true, p.cacheTTL⟩) ∧
      (V ≠ Private →
        (RepoPerms p env c account [repo]).cache.userRepo = c.userRepo)) := by
  rw [repoPerms_singleton_reaches_phase3 p env c account repo i hown hparse hvis huser, hdec]
  constructor
  · intro hvf
    simp [phase3, hparse, hfetch, hvf]
  · intro hvf huf
    by_cases hP : V = Private
    · have huf' := huf hP
      simp [phase3, hparse, hfetch, hvf, hP, huf', permsSet,
        cacheGetRepoVisibility_setUser, cacheGetRepoVisibility_set_same,
        cacheGetUserRepo_set_same]
    · simp [phase3, hparse, hfetch, hvf, hP, permsSet,
        cacheGetRepoVisibility_set_same, cacheSetRepoVisibility_userRepo]

/-! ## C4 — phase-3 handling of a not-accessible fetch, authenticated -/

/-- C4: on a singleton batch reaching phase 3, a not-accessible fetch
under an authenticated account leaves the repository without any entry
in the returned map, classifies it as private in the visibility cache,
and records a negative user-access grant. -/
theorem c4_not_accessible_authenticated
    (p : Provider) (env : Env) (c : Cache) (account : Option ExternalAccount)
    (repo : Repo) (i : Int) (tok : String)
    (hown : providerOwns p repo = true)
    (hparse : goAtoi repo.externalRepoSpec.id = some i)
    (hvis : cacheGetRepoVisibility c i = none)
    (huser : resolvedAccountID p account ≠ "" →
      cacheGetUserRepo c (resolvedAccountID p account) i = none)
    (ha : resolvedAccountID p account ≠ "")
    (hdec : decodeToken account = .ok tok)
    (hfetch : env.fetch tok i = ⟨false, "", false⟩)
    (hvf : env.visSetFails i = false)
    (huf : env.userSetFails (resolvedAccountID p account) i = false) :
    (RepoPerms p env c account [repo]).res = .ok [] ∧
    cacheGetRepoVisibility (RepoPerms p env c account [repo]).cache i =
      some ⟨Private, p.cacheTTL⟩ ∧
    cacheGetUserRepo (RepoPerms p env c account [repo]).cache
      (resolvedAccountID p account) i = some ⟨false, p.cacheTTL⟩ := by
  rw [repoPerms_singleton_reaches_phase3 p env c account repo i hown hparse hvis huser, hdec]
  simp [phase3, hparse, hfetch, bne_iff_ne, ha, hvf, huf,
    cacheGetRepoVisibility_setUser, cacheGetRepoVisibility_set_same,
    cacheGetUserRepo_set_same]

/-! ## C8 — phase-3 not-accessible fetch, anonymous: no writes at all -/

/-- C8: on a singleton batch reaching phase 3, a not-accessible fetch
under an anonymous account produces no permission entry and leaves the
cache exactly as it was — neither the visibility cache nor the
user-access cache is modified. -/
theorem c8_not_accessible_anonymous
    (p : Provider) (env : Env) (c : Cache) (account : Option ExternalAccount)
    (repo : Repo) (i : Int) (tok : String)
    (hown : providerOwns p repo = true)
    (hparse : goAtoi repo.externalRepoSpec.id = some i)
    (hvis : cacheGetRepoVisibility c i = none)
    (ha : resolvedAccountID p account = "")
    (hdec : decodeToken account = .ok tok)
    (hfetch : env.fetch tok i = ⟨false, "", false⟩) :
    (RepoPerms p env c account [repo]).res = .ok [] ∧
    (RepoPerms p env c account [repo]).cache = c := by
  rw [repoPerms_singleton_reaches_phase3 p env c account repo i hown hparse hvis
    (fun h => absurd ha h), hdec]
  simp [phase3, hparse, hfetch, ha]

/-! ## C10 — non-nil accounts: decode failure is fatal, token is the credential -/

/-- C10: a call that reaches phase 3 with a non-nil account — the
resolved account ID may be empty, as for a service-identity mismatch —
decodes that account's stored data: a decode failure aborts the whole
call with an error, no result map, no cache change and no fetch, while a
successful decode makes the decoded access token the fetch credential. -/
theorem c10_nonnil_account_decode_and_credential
    (p : Provider) (env : Env) (c : Cache) (a : ExternalAccount)
    (repo : Repo) (i : Int)
    (hown : providerOwns p repo = true)
    (hparse : goAtoi repo.externalRepoSpec.id = some i)
    (hvis : cacheGetRepoVisibility c i = none)
    (huser : resolvedAccountID p (some a) ≠ "" →
      cacheGetUserRepo c (resolvedAccountID p (some a)) i = none) :
    (a.externalAccountData = none →
      RepoPerms p env c (some a) [repo] = ⟨.error decodeErrMsg, c, []⟩) ∧
    (∀ tok, a.externalAccountData = some tok →
      (RepoPerms p env c (some a) [repo]).fetchLog = [(tok, i)]) := by
  rw [repoPerms_singleton_reaches_phase3 p env c (some a) repo i hown hparse hvis huser]
  constructor
  · intro hdata
    simp [decodeToken, hdata]
  · intro tok hdata
    simp [decodeToken, hdata,
      phase3_singleton_fetchLog env (resolvedAccountID p (some a)) tok p.cacheTTL c repo i hparse]

/-! ## C6 — phase-1 grant conditions, and the phase-3 re-fetch bug -/

/-- C6 (bug exhibit): anonymous caller, project 1 has a fresh public
visibility-cache entry (and is resolved in phase 1 with read=true),
project 2 has none. Because the anonymous path never renews `remaining`,
phase 3 iterates the full owned set and issues a remote fetch for
project 1 as well — the fetch log contains both projects — contradicting
the claim that a phase-1-resolved repository causes no remote call. -/
theorem c6_phase1_resolved_repo_refetched :
    cacheGetRepoVisibility c6cache 1 = some ⟨Public, 60⟩ ∧
    (RepoPerms p0 envAllPublic c6cache none [repoA, repoB]).res =
      .ok [("b", true), ("a", true)] ∧
    (RepoPerms p0 envAllPublic c6cache none [repoA, repoB]).fetchLog =
      [("", 1), ("", 2)] := by decide

/-! ## C7 — phase-2 resolution overwritten by the phase-3 re-fetch bug -/

/-- C7 (bug exhibit): authenticated caller user1, fresh user-access
cache entry (user1, project 1) = false, project 2 uncached. Phase 2
resolves project 1 with read=false, but phase 3 iterates phase 2's input
set (not its leftovers), re-fetches project 1, finds it accessible and
overwrites the entry to read=true — contradicting the claim that a fresh
cached grant value is what the repository resolves to. -/
theorem c7_phase2_cached_false_overwritten :
    resolvedAccountID p0 (some acct1) = "user1" ∧
    cacheGetUserRepo c7cache "user1" 1 = some ⟨false, 60⟩ ∧
    (RepoPerms p0 envAllPublic c7cache (some acct1) [repoA, repoB]).res =
      .ok [("b", true), ("a", true)] ∧
    (RepoPerms p0 envAllPublic c7cache (some acct1) [repoA, repoB]).fetchLog =
      [("t", 1), ("t", 2)] := by decide

/-! ## C2 — idempotence of a second resolution call -/

/-- Counterexample to C2 as stated: anonymous caller, project 1 fetched
accessible with internal visibility. The first call resolves the
repository via phase 3 (one fetch) and writes a visibility-cache entry,
yet the second call cannot short-circuit (internal is not grantable to
anonymous callers in phase 1, and phase 2 is skipped) and issues a
second remote fetch. -/
theorem c2_counterexample :
    (RepoPerms p0 envInternal ⟨[], []⟩ none [repoA]).res = .ok [("a", true)] ∧
    (RepoPerms p0 envInternal ⟨[], []⟩ none [repoA]).fetchLog = [("", 1)] ∧
    (RepoPerms p0 envInternal ⟨[], []⟩ none [repoA]).cache =
      ⟨[(1, ⟨Internal, 60⟩)], []⟩ ∧
    (RepoPerms p0 envInternal
        (RepoPerms p0 envInternal ⟨[], []⟩ none [repoA]).cache none [repoA]).fetchLog =
      [("", 1)] := by decide

/-- C2 (amended): on a singleton batch, if the first call resolved the
repository via phase 3 with an accessible fetch of visibility V and
wrote its cache entries, and the cached class suffices for the caller —
V public, or an authenticated account with V internal or private — then
a second call with the same account and repository short-circuits in
phase 1 or phase 2, returns the identical permission result, and issues
no second remote fetch. (For an anonymous caller with V internal or
private the second call re-fetches: see the counterexample.) -/
theorem c2_amended_idempotent
    (p : Provider) (env : Env) (c : Cache) (account : Option ExternalAccount)
    (repo : Repo) (i : Int) (tok V : String)
    (hown : providerOwns p repo = true)
    (hparse : goAtoi repo.externalRepoSpec.id = some i)
    (hvis : cacheGetRepoVisibility c i = none)
    (huser : resolvedAccountID p account ≠ "" →
      cacheGetUserRepo c (resolvedAccountID p account) i = none)
    (hdec : decodeToken account = .ok tok)
    (hfetch : env.fetch tok i = ⟨true, V, false⟩)
    (hvf : env.visSetFails i = false)
    (huf : env.userSetFails (resolvedAccountID p account) i = false)
    (hclass : V = Public ∨
      (resolvedAccountID p account ≠ "" ∧ (V = Internal ∨ V = Private))) :
    (RepoPerms p env c account [repo]).res = .ok [(repo.repoName, true)] ∧
    (RepoPerms p env (RepoPerms p env c account [repo]).cache account [repo]).res =
      .ok [(repo.repoName, true)] ∧
    (RepoPerms p env (RepoPerms p env c account [repo]).cache account [repo]).fetchLog =
      [] := by
  have hb1 : (Public == Private) = false := by decide
  have hb3 : (Internal == Private) = false := by decide
  have hb4 : (Internal == Public) = false := by decide
  have hb6 : (Private == Public) = false := by decide
  have hb7 : (Private == Internal) = false := by decide
  rcases hclass with hpub | ⟨haid, hIP⟩
  · subst hpub
    have h1 : RepoPerms p env c account [repo] =
        ⟨.ok [(repo.repoName, true)],
         cacheSetRepoVisibility c i ⟨Public, p.cacheTTL⟩, [(tok, i)]⟩ := by
      rw [repoPerms_singleton_reaches_phase3 p env c account repo i hown hparse hvis huser,
        hdec]
      simp [phase3, hparse, hfetch, hvf, hb1, permsSet]
    have hph1 : phase1 (resolvedAccountID p account)
        (cacheSetRepoVisibility c i ⟨Public, p.cacheTTL⟩) [] [repo] =
        .ok ([(repo.repoName, true)], []) := by
      simp [phase1, hparse, cacheGetRepoVisibility_set_same, permsSet]
    have h2 : RepoPerms p env (cacheSetRepoVisibility c i ⟨Public, p.cacheTTL⟩)
        account [repo] =
        ⟨.ok [(repo.repoName, true)],
         cacheSetRepoVisibility c i ⟨Public, p.cacheTTL⟩, []⟩ := by
      simp [RepoPerms, hown, hph1]
    simp [h1, h2]
  · rcases hIP with hint | hpriv
    · subst hint
      have h1 : RepoPerms p env c account [repo] =
          ⟨.ok [(repo.repoName, true)],
           cacheSetRepoVisibility c i ⟨Internal, p.cacheTTL⟩, [(tok, i)]⟩ := by
        rw [repoPerms_singleton_reaches_phase3 p env c account repo i hown hparse hvis huser,
          hdec]
        simp [phase3, hparse, hfetch, hvf, hb3, permsSet]
      have hph1 : phase1 (resolvedAccountID p account)
          (cacheSetRepoVisibility c i ⟨Internal, p.cacheTTL⟩) [] [repo] =
          .ok ([(repo.repoName, true)], []) := by
        simp [phase1, hparse, cacheGetRepoVisibility_set_same, permsSet, hb4,
          bne_iff_ne, haid]
      have h2 : RepoPerms p env (cacheSetRepoVisibility c i ⟨Internal, p.cacheTTL⟩)
          account [repo] =
          ⟨.ok [(repo.repoName, true)],
           cacheSetRepoVisibility c i ⟨Internal, p.cacheTTL⟩, []⟩ := by
        simp [RepoPerms, hown, hph1]
      simp [h1, h2]
    · subst hpriv
      have h1 : RepoPerms p env c account [repo] =
          ⟨.ok [(repo.repoName, true)],
           cacheSetUserRepo (cacheSetRepoVisibility c i ⟨Private, p.cacheTTL⟩)
             (resolvedAccountID p account) i ⟨true, p.cacheTTL⟩, [(tok, i)]⟩ := by
        rw [repoPerms_singleton_reaches_phase3 p env c account repo i hown hparse hvis huser,
          hdec]
        simp [phase3, hparse, hfetch, hvf, huf, permsSet]
      have hph1 : phase1 (resolvedAccountID p account)
          (cacheSetUserRepo (cacheSetRepoVisibility c i ⟨Private, p.cacheTTL⟩)
            (resolvedAccountID p account) i ⟨true, p.cacheTTL⟩) [] [repo] =
          .ok ([], [repo]) := by
        simp [phase1, hparse, cacheGetRepoVisibility_setUser,
          cacheGetRepoVisibility_set_same, hb6, hb7, Except.map]
      have hph2 : phase2 (resolvedAccountID p account)
          (cacheSetUserRepo (cacheSetRepoVisibility c i ⟨Private, p.cacheTTL⟩)
            (resolvedAccountID p account) i ⟨true, p.cacheTTL⟩) [] [repo] =
          .ok ([(repo.repoName, true)], []) := by
        simp [phase2, hparse, cacheGetUserRepo_set_same, permsSet]
      have h2 : RepoPerms p env
          (cacheSetUserRepo (cacheSetRepoVisibility c i ⟨Private, p.cacheTTL⟩)
            (resolvedAccountID p account) i ⟨true, p.cacheTTL⟩) account [repo] =
          ⟨.ok [(repo.repoName, true)],
           cacheSetUserRepo (cacheSetRepoVisibility c i ⟨Private, p.cacheTTL⟩)
             (resolvedAccountID p account) i ⟨true, p.cacheTTL⟩, []⟩ := by
        simp [RepoPerms, hown, hph1, hph2, bne_iff_ne, haid]
      simp [h1, h2]

/-! ## C5 — fatal malformed identifier vs non-fatal fetch failure -/

/-- Phase 1 parses every repository, so one unparsable external ID
anywhere in the list makes the whole phase return the parse error. -/
theorem phase1_error_of_unparsable (aid : String) (c : Cache) :
    ∀ (rs : List Repo) (perms : List (String × Bool)),
      (∃ r ∈ rs, goAtoi r.externalRepoSpec.id = none) →
      phase1 aid c perms rs = .error parseErrMsg := by
  intro rs
  induction rs with
  | nil =>
    intro perms h
    rcases h with ⟨r, hr, _⟩
    cases hr
  | cons head tail ih =>
    intro perms h
    rcases h with ⟨r, hr, hbad⟩
    rcases List.mem_cons.mp hr with heq | hmem
    · subst heq
      simp [phase1, hbad]
    · have ht : ∀ ps, phase1 aid c ps tail = .error parseErrMsg :=
        fun ps => ih ps ⟨r, hmem, hbad⟩
      cases hp : goAtoi head.externalRepoSpec.id with
      | none => simp [phase1, hp]
      | some j =>
        cases hv : cacheGetRepoVisibility c j with
        | none => simp [phase1, hp, hv, ht, Except.map]
        | some v =>
          by_cases hcond :
            (v.visibility == Public || (v.visibility == Internal && aid != "")) = true
          · simp [phase1, hp, hv, hcond, ht]
          · simp [phase1, hp, hv, hcond, ht, Except.map]

/-- A batch containing one owned repository whose external ID does not
parse returns the wrapped parse error and no result map, whatever the
other repositories and the caches are. -/
theorem repoPerms_error_of_unparsable
    (p : Provider) (env : Env) (c : Cache) (account : Option ExternalAccount)
    (repos : List Repo) (r : Repo) (hmem : r ∈ repos)
    (hown : providerOwns p r = true)
    (hbad : goAtoi r.externalRepoSpec.id = none) :
    (RepoPerms p env c account repos).res = .error parseErrMsg := by
  have h1 : phase1 (resolvedAccountID p account) c [] (repos.filter (providerOwns p)) =
      .error parseErrMsg :=
    phase1_error_of_unparsable (resolvedAccountID p account) c _ []
      ⟨r, List.mem_filter.mpr ⟨hmem, hown⟩, hbad⟩
  simp [RepoPerms, h1]

/-- C5 (bug exhibit): the malformed-identifier half holds — a batch
with the unparsable ID "notanum" returns the parse error and no map
even though its other repository is resolvable (first conjunct; the
general statement is `repoPerms_error_of_unparsable`). The
transport-error half does not hold of the code: with an anonymous
caller, project 1 carrying a fresh public visibility-cache entry and
project 2 uncached, the un-renewed `remaining` set makes phase 3
re-fetch project 1; that fetch fails with a transport error (fetch log
[("",1),("",2)]), yet project 1 is not omitted — the returned map keeps
its phase-1 entry read=true alongside project 2's, with no top-level
error. -/
theorem c5_parse_fatal_and_failed_fetch_not_omitted :
    (RepoPerms p0 envAllPublic ⟨[], []⟩ none [repoA, repoBad]).res = .error parseErrMsg ∧
    cacheGetRepoVisibility c6cache 1 = some ⟨Public, 60⟩ ∧
    (envC5bug.fetch "" 1).hasError = true ∧
    (RepoPerms p0 envC5bug c6cache none [repoA, repoB]).res =
      .ok [("b", true), ("a", true)] ∧
    (RepoPerms p0 envC5bug c6cache none [repoA, repoB]).fetchLog =
      [("", 1), ("", 2)] := by decide

/-! ## C1 — anonymous callers and public-only access -/

/-- Phase 1 under the empty account ID only adds read=true entries for
repositories whose cached visibility is the ground-truth-public class. -/
theorem phase1_anonymous_true_entries (c : Cache) (gt : Int → String)
    (hc : ∀ i v, cacheGetRepoVisibility c i = some v → v.visibility = gt i) :
    ∀ (rs : List Repo) (perms perms' : List (String × Bool)) (rem : List Repo),
      phase1 "" c perms rs = .ok (perms', rem) →
      ∀ q ∈ perms', q.2 = true →
        q ∈ perms ∨ ∃ r ∈ rs, r.repoName = q.1 ∧
          ∃ i, goAtoi r.externalRepoSpec.id = some i ∧ gt i = Public := by
  intro rs
  induction rs with
  | nil =>
    intro perms perms' rem h q hq _
    simp [phase1] at h
    exact Or.inl (h.1 ▸ hq)
  | cons head tail ih =>
    intro perms perms' rem h q hq hq2
    cases hp : goAtoi head.externalRepoSpec.id with
    | none => simp [phase1, hp] at h
    | some j =>
      cases hv : cacheGetRepoVisibility c j with
      | none =>
        rcases h3 : phase1 "" c perms tail with e | ⟨ps1, rem1⟩
        · simp [phase1, hp, hv, h3, Except.map] at h
        · simp [phase1, hp, hv, h3, Except.map] at h
          rcases ih perms ps1 rem1 h3 q (h.1 ▸ hq) hq2 with hin | ⟨r, hr, hrest⟩
          · exact Or.inl hin
          · exact Or.inr ⟨r, List.mem_cons_of_mem _ hr, hrest⟩
      | some v =>
        by_cases hpub : v.visibility = Public
        · simp [phase1, hp, hv, hpub] at h
          rcases ih (permsSet perms head.repoName true) perms' rem h q hq hq2 with
            hin | ⟨r, hr, hrest⟩
          · rcases mem_permsSet hin with heq | hin'
            · refine Or.inr ⟨head, List.mem_cons_self _ _, ?_, j, hp, ?_⟩
              · rw [heq]
              · rw [← hpub]
                exact (hc j v hv).symm
            · exact Or.inl hin'
          · exact Or.inr ⟨r, List.mem_cons_of_mem _ hr, hrest⟩
        · rcases h3 : phase1 "" c perms tail with e | ⟨ps1, rem1⟩
          · simp [phase1, hp, hv, hpub, h3, Except.map] at h
          · simp [phase1, hp, hv, hpub, h3, Except.map] at h
            rcases ih perms ps1 rem1 h3 q (h.1 ▸ hq) hq2 with hin | ⟨r, hr, hrest⟩
            · exact Or.inl hin
            · exact Or.inr ⟨r, List.mem_cons_of_mem _ hr, hrest⟩

/-- Phase 3 under the empty account ID and empty credential only adds
read=true entries for repositories the anonymous fetch reports
accessible, which the fetch hypothesis ties to public visibility. -/
theorem phase3_anonymous_true_entries (env : Env) (ttl : Nat) (gt : Int → String)
    (hf : ∀ i, (env.fetch "" i).hasError = false →
      (env.fetch "" i).isAccessible = true → gt i = Public) :
    ∀ (rs : List Repo) (c : Cache) (perms ps : List (String × Bool))
      (c' : Cache) (l : List (String × Int)),
      phase3 env "" "" ttl c perms rs = (.ok ps, c', l) →
      ∀ q ∈ ps, q.2 = true →
        q ∈ perms ∨ ∃ r ∈ rs, r.repoName = q.1 ∧
          ∃ i, goAtoi r.externalRepoSpec.id = some i ∧ gt i = Public := by
  intro rs
  induction rs with
  | nil =>
    intro c perms ps c' l h q hq _
    simp [phase3] at h
    exact Or.inl (h.1 ▸ hq)
  | cons head tail ih =>
    intro c perms ps c' l h q hq hq2
    cases hp : goAtoi head.externalRepoSpec.id with
    | none => simp [phase3, hp] at h
    | some j =>
      rcases hfr : env.fetch "" j with ⟨acc, vis, herr⟩
      cases herr with
      | true =>
        rcases h3 : phase3 env "" "" ttl c perms tail with ⟨r3, c3, l3⟩
        simp [phase3, hp, hfr, h3] at h
        rcases ih c perms ps c3 l3 (by rw [h3, h.1]) q hq hq2 with hin | ⟨r, hr, hrest⟩
        · exact Or.inl hin
        · exact Or.inr ⟨r, List.mem_cons_of_mem _ hr, hrest⟩
      | false =>
        cases acc with
        | false =>
          rcases h3 : phase3 env "" "" ttl c perms tail with ⟨r3, c3, l3⟩
          simp [phase3, hp, hfr, h3] at h
          rcases ih c perms ps c3 l3 (by rw [h3, h.1]) q hq hq2 with hin | ⟨r, hr, hrest⟩
          · exact Or.inl hin
          · exact Or.inr ⟨r, List.mem_cons_of_mem _ hr, hrest⟩
        | true =>
          have hgt : gt j = Public := by
            refine hf j ?_ ?_ <;> rw [hfr]
          cases hvf : env.visSetFails j with
          | true => simp [phase3, hp, hfr, hvf] at h
          | false =>
            by_cases hP : vis = Private
            · subst hP
              cases huf : env.userSetFails "" j with
              | true => simp [phase3, hp, hfr, hvf, huf] at h
              | false =>
                rcases h3 : phase3 env "" "" ttl
                    (cacheSetUserRepo (cacheSetRepoVisibility c j ⟨Private, ttl⟩) "" j
                      ⟨true, ttl⟩)
                    (permsSet perms head.repoName true) tail with ⟨r3, c3, l3⟩
                simp [phase3, hp, hfr, hvf, huf, h3] at h
                rcases ih _ (permsSet perms head.repoName true) ps c3 l3
                    (by rw [h3, h.1]) q hq hq2 with hin | ⟨r, hr, hrest⟩
                · rcases mem_permsSet hin with heq | hin'
                  · refine Or.inr ⟨head, List.mem_cons_self _ _, ?_, j, hp, hgt⟩
                    rw [heq]
                  · exact Or.inl hin'
                · exact Or.inr ⟨r, List.mem_cons_of_mem _ hr, hrest⟩
            · rcases h3 : phase3 env "" "" ttl
                  (cacheSetRepoVisibility c j ⟨vis, ttl⟩)
                  (permsSet perms head.repoName true) tail with ⟨r3, c3, l3⟩
              simp [phase3, hp, hfr, hvf, hP, h3] at h
              rcases ih _ (permsSet perms head.repoName true) ps c3 l3
                  (by rw [h3, h.1]) q hq hq2 with hin | ⟨r, hr, hrest⟩
              · rcases mem_permsSet hin with heq | hin'
                · refine Or.inr ⟨head, List.mem_cons_self _ _, ?_, j, hp, hgt⟩
                  rw [heq]
                · exact Or.inl hin'
              · exact Or.inr ⟨r, List.mem_cons_of_mem _ hr, hrest⟩

/-- C1 (amended): a call with a nil account — whose fetches therefore
carry the empty credential — grants read=true only to repositories of
public ground-truth visibility, provided the visibility cache is
consistent with the ground truth and anonymous fetches report accessible
only public projects. (A non-nil account treated as anonymous still has
its stored token used as the fetch credential: see the counterexample.) -/
theorem c1_amended_nil_account_public_only
    (p : Provider) (env : Env) (c : Cache) (repos : List Repo) (gt : Int → String)
    (hc : ∀ i v, cacheGetRepoVisibility c i = some v → v.visibility = gt i)
    (hf : ∀ i, (env.fetch "" i).hasError = false →
      (env.fetch "" i).isAccessible = true → gt i = Public) :
    ∀ ps, (RepoPerms p env c none repos).res = .ok ps →
      ∀ q ∈ ps, q.2 = true →
        ∃ r ∈ repos, r.repoName = q.1 ∧
          ∃ i, goAtoi r.externalRepoSpec.id = some i ∧ gt i = Public := by
  intro ps hres q hq hq2
  rcases h1 : phase1 "" c [] (repos.filter (providerOwns p)) with e | ⟨perms1, next1⟩
  · simp [RepoPerms, resolvedAccountID, h1] at hres
  · by_cases hni : next1.isEmpty
    · simp [RepoPerms, resolvedAccountID, h1, hni] at hres
      rcases phase1_anonymous_true_entries c gt hc _ [] perms1 next1 h1 q
          (hres ▸ hq) hq2 with hin | ⟨r, hr, hrest⟩
      · exact absurd hin (List.not_mem_nil q)
      · exact ⟨r, (List.mem_filter.mp hr).1, hrest⟩
    · rcases h3 : phase3 env "" "" p.cacheTTL c perms1 (repos.filter (providerOwns p))
        with ⟨r3, c3, l3⟩
      simp [RepoPerms, resolvedAccountID, decodeToken, h1, hni, h3] at hres
      rcases phase3_anonymous_true_entries env p.cacheTTL gt hf _ c perms1 ps c3 l3
          (by rw [h3, hres]) q hq hq2 with hin | ⟨r, hr, hrest⟩
      · rcases phase1_anonymous_true_entries c gt hc _ [] perms1 next1 h1 q hin hq2 with
          hin' | ⟨r, hr, hrest⟩
        · exact absurd hin' (List.not_mem_nil q)
        · exact ⟨r, (List.mem_filter.mp hr).1, hrest⟩
      · exact ⟨r, (List.mem_filter.mp hr).1, hrest⟩

/-- Counterexample to C1 as stated: an account whose service identity
does not match the provider resolves to the empty (anonymous) account
ID, yet its stored OAuth token is still used as the fetch credential; a
project that token can see — here an internal one invisible to truly
anonymous fetches — is granted read=true. -/
theorem c1_counterexample :
    resolvedAccountID p0 (some acctMismatch) = "" ∧
    (envC1.fetch "tok" 1).vis = Internal ∧
    (envC1.fetch "" 1).isAccessible = false ∧
    (RepoPerms p0 envC1 ⟨[], []⟩ (some acctMismatch) [repoA]).res =
      .ok [("a", true)] := by decide

/-! ## Witnesses: each hypothesis-bearing claim theorem applied at a
concrete input -/

/-- A world where every project is accessible with private visibility. -/
def envPrivate : Env :=
  { fetch := fun _ _ => ⟨true, Private, false⟩
    visSetFails := fun _ => false
    userSetFails := fun _ _ => false }

/-- A world where no project is accessible (the host answers 404). -/
def envNotFound : Env :=
  { fetch := fun _ _ => ⟨false, "", false⟩
    visSetFails := fun _ => false
    userSetFails := fun _ _ => false }

/-- A matched account whose stored external-account data does not decode. -/
def acctBadData : ExternalAccount := ⟨"gitlab", "https://gl.example.com/", "user2", none⟩

/-- Witness for C1 at a concrete input: nil account, empty cache, all
fetches public-accessible, ground truth constantly public. -/
theorem c1_amended_nil_account_public_only_witness :
    ∃ r ∈ [repoA], r.repoName = "a" ∧
      ∃ i, goAtoi r.externalRepoSpec.id = some i ∧ Public = Public := by
  exact c1_amended_nil_account_public_only p0 envAllPublic ⟨[], []⟩ [repoA]
    (fun _ => Public)
    (fun i v h => by simp [cacheGetRepoVisibility] at h)
    (fun _ _ _ => rfl)
    [("a", true)] (by decide) ("a", true) (by decide) rfl

/-- Witness for C2 at a concrete input: authenticated account user1,
empty cache, project 1 fetched accessible private; both calls return
read=true for "a" and the second call issues no fetch. -/
theorem c2_amended_idempotent_witness :
    (RepoPerms p0 envPrivate ⟨[], []⟩ (some acct1) [repoA]).res = .ok [("a", true)] ∧
    (RepoPerms p0 envPrivate (RepoPerms p0 envPrivate ⟨[], []⟩ (some acct1) [repoA]).cache
        (some acct1) [repoA]).res = .ok [("a", true)] ∧
    (RepoPerms p0 envPrivate (RepoPerms p0 envPrivate ⟨[], []⟩ (some acct1) [repoA]).cache
        (some acct1) [repoA]).fetchLog = [] :=
  c2_amended_idempotent p0 envPrivate ⟨[], []⟩ (some acct1) repoA 1 "t" Private
    (by decide) (by decide) (by decide) (fun _ => rfl) rfl rfl rfl rfl
    (Or.inr ⟨by decide, Or.inr rfl⟩)

/-- Witness for C3 at a concrete input: authenticated account user1,
empty cache, project 1 fetched accessible private. -/
theorem c3_accessible_fetch_witness :
    (RepoPerms p0 envPrivate ⟨[], []⟩ (some acct1) [repoA]).res = .ok [("a", true)] ∧
    cacheGetRepoVisibility (RepoPerms p0 envPrivate ⟨[], []⟩ (some acct1) [repoA]).cache 1 =
      some ⟨Private, 60⟩ ∧
    cacheGetUserRepo (RepoPerms p0 envPrivate ⟨[], []⟩ (some acct1) [repoA]).cache
      "user1" 1 = some ⟨true, 60⟩ := by
  have h := (c3_accessible_fetch p0 envPrivate ⟨[], []⟩ (some acct1) repoA 1 "t" Private
      (by decide) (by decide) (by decide) (fun _ => rfl) rfl rfl).2 rfl (fun _ => rfl)
  refine ⟨h.1, h.2.1, ?_⟩
  have h2 := h.2.2.1 rfl
  have ha : resolvedAccountID p0 (some acct1) = "user1" := by decide
  rw [ha] at h2
  exact h2

/-- Witness for C4 at a concrete input: authenticated account user1,
empty cache, project 1 fetched not accessible. -/
theorem c4_not_accessible_authenticated_witness :
    (RepoPerms p0 envNotFound ⟨[], []⟩ (some acct1) [repoA]).res = .ok [] ∧
    cacheGetRepoVisibility (RepoPerms p0 envNotFound ⟨[], []⟩ (some acct1) [repoA]).cache 1 =
      some ⟨Private, 60⟩ ∧
    cacheGetUserRepo (RepoPerms p0 envNotFound ⟨[], []⟩ (some acct1) [repoA]).cache
      "user1" 1 = some ⟨false, 60⟩ := by
  have h := c4_not_accessible_authenticated p0 envNotFound ⟨[], []⟩ (some acct1) repoA 1 "t"
    (by decide) (by decide) (by decide) (fun _ => rfl) (by decide) rfl rfl rfl rfl
  have ha : resolvedAccountID p0 (some acct1) = "user1" := by decide
  rw [ha] at h
  exact h

/-- Witness for C8 at a concrete input: nil account, empty cache,
project 1 fetched not accessible — no entry, cache untouched. -/
theorem c8_not_accessible_anonymous_witness :
    (RepoPerms p0 envNotFound ⟨[], []⟩ none [repoA]).res = .ok [] ∧
    (RepoPerms p0 envNotFound ⟨[], []⟩ none [repoA]).cache = ⟨[], []⟩ :=
  c8_not_accessible_anonymous p0 envNotFound ⟨[], []⟩ none repoA 1 ""
    (by decide) (by decide) (by decide) rfl rfl rfl

/-- Witness for C10 at concrete inputs: a matched account with
undecodable data aborts the call; a mismatched (anonymous) account's
decoded token "tok" is the credential of the single logged fetch. -/
theorem c10_nonnil_account_decode_and_credential_witness :
    RepoPerms p0 envC1 ⟨[], []⟩ (some acctBadData) [repoA] =
      ⟨.error decodeErrMsg, ⟨[], []⟩, []⟩ ∧
    (RepoPerms p0 envC1 ⟨[], []⟩ (some acctMismatch) [repoA]).fetchLog = [("tok", 1)] := by
  constructor
  · exact (c10_nonnil_account_decode_and_credential p0 envC1 ⟨[], []⟩ acctBadData repoA 1
      (by decide) (by decide) (by decide) (fun _ => rfl)).1 rfl
  · exact (c10_nonnil_account_decode_and_credential p0 envC1 ⟨[], []⟩ acctMismatch repoA 1
      (by decide) (by decide) (by decide) (fun _ => rfl)).2 "tok" rfl

end GitlabAuthz
